import Mathlib

set_option maxRecDepth 8000

/-!
# Verification of the football-rag ETL pipeline and query sandbox

Shallow embedding of the repository's ETL loaders (matches, lineups,
360-tracking, events), the player-stats aggregation pass, and the guarded
SQL sandbox, together with proofs of the specified properties.

Conventions used throughout:
* JavaScript strings are Lean `String`s; the regex `\b…\b` word-boundary
  test with the `i` flag is modelled character-by-character over `List Char`.
* JSON documents are modelled as Lean structures mirroring the TypeScript
  interfaces; a field that the code accesses with `?.` is an `Option`.
* Machine numbers are `Nat` / `Int` / `ℚ` (the quantities involved are tiny
  and exact in the source's doubles).
* A function that can `throw` returns `Except String _` or `Option _`.
-/

namespace FootballRag

/-! ## SQL sandbox (src/routes/rag.ts `validateSQL` / `executeSQL`,
     src/backend/src/routes/playground.ts POST /query) -/

namespace Sandbox

/-! JS string primitives, modelled over `List Char` so that every
definition evaluates by kernel reduction. -/

/-- JS `String.prototype.trim` on a character list (ASCII whitespace;
the queries involved contain no exotic Unicode whitespace). -/
def jsTrimList (cs : List Char) : List Char :=
  ((cs.dropWhile Char.isWhitespace).reverse.dropWhile Char.isWhitespace).reverse

/-- JS `query.trim()`. -/
def jsTrim (s : String) : String := String.mk (jsTrimList s.data)

/-- JS `query.toUpperCase()` (ASCII). -/
def jsToUpper (s : String) : String := String.mk (s.data.map Char.toUpper)

/-- JS `s.startsWith(pre)`. -/
def jsStartsWith (s pre : String) : Bool := pre.data.isPrefixOf s.data

/-- JS `query.split(";")` on a character list: pieces between semicolons,
in order, empty pieces included. -/
def jsSplitSemi : List Char → List (List Char)
  | [] => [[]]
  | c :: rest =>
    match jsSplitSemi rest with
    | [] => [[]]
    | piece :: pieces =>
        if c = ';' then [] :: piece :: pieces else (c :: piece) :: pieces

/-- JS regex word-character class `[A-Za-z0-9_]` (the class that defines
`\b` boundaries).  `Char.isAlpha` / `Char.isDigit` are ASCII in Lean core,
matching JS `\w`. -/
def isWordChar (c : Char) : Bool := c.isAlpha || c.isDigit || c == '_'

/-- Case-insensitive character comparison (regex flag `i`, ASCII). -/
def ciEq (a b : Char) : Bool := a.toUpper == b.toUpper

/-- `kw` matches case-insensitively at the head of `s`, and the position
immediately after the match is a word boundary (end of string or a
non-word character). -/
def wwHere : List Char → List Char → Bool
  | [], [] => true
  | [], c :: _ => !isWordChar c
  | _ :: _, [] => false
  | k :: ks, c :: cs => ciEq k c && wwHere ks cs

/-- The position between `prev` (the previous character, if any) and the
current position is a word boundary, given the keyword starts with a word
character. -/
def boundaryBefore : Option Char → Bool
  | none => true
  | some p => !isWordChar p

/-- Scan for a whole-word, case-insensitive occurrence of `kw`;
`prev` is the character preceding the current position. -/
def wwSearch (kw : List Char) : Option Char → List Char → Bool
  | _, [] => false
  | prev, c :: cs => (boundaryBefore prev && wwHere kw (c :: cs)) || wwSearch kw (some c) cs

/-- `new RegExp("\\b" + kw + "\\b", "i").test q` for an alphabetic keyword. -/
def containsWholeWordCI (kw q : String) : Bool :=
  wwSearch kw.data none q.data

/-- `DANGEROUS_KEYWORDS` of the chat sandbox (rag route). -/
def DANGEROUS_KEYWORDS : List String :=
  ["INSERT", "UPDATE", "DELETE", "DROP", "TRUNCATE", "ALTER", "CREATE",
   "GRANT", "REVOKE", "EXECUTE", "EXEC", "CALL", "INTO", "COPY", "VACUUM",
   "SET", "LOCK"]

/-- `dangerousKeywords` of the playground /query route. -/
def dangerousKeywords : List String :=
  ["INSERT", "UPDATE", "DELETE", "DROP", "TRUNCATE", "ALTER", "CREATE",
   "GRANT", "REVOKE", "EXECUTE", "EXEC"]

/-- `kws.find(kw => regex(kw).test(q))`: the first keyword of the list that
occurs whole-word case-insensitively in `q`. -/
def findBannedKeyword (kws : List String) (q : String) : Option String :=
  kws.find? (fun kw => containsWholeWordCI kw q)

/-- `query.split(";").filter(s => s.trim()).length > 1`. -/
def multiStatement (q : String) : Bool :=
  ((jsSplitSemi q.data).filter (fun s => !(jsTrimList s).isEmpty)).length > 1

/-- `!upperQuery.startsWith("SELECT") && !upperQuery.startsWith("WITH")`
applied to `q.trim().toUpperCase()`. -/
def notReadOnlyStart (q : String) : Bool :=
  !(jsStartsWith (jsToUpper (jsTrim q)) "SELECT") &&
  !(jsStartsWith (jsToUpper (jsTrim q)) "WITH")

/-- Result of `validateSQL`: `{valid: true}` or `{valid: false, error}`. -/
inductive SqlValidation
  | valid
  | invalid (error : String)
deriving DecidableEq

/-- `validateSQL` of the rag route: start check, then the keyword loop,
then the multiple-statement check. -/
def validateSQL (query : String) : SqlValidation :=
  if notReadOnlyStart query then
    .invalid "Only SELECT queries are allowed"
  else
    match findBannedKeyword DANGEROUS_KEYWORDS query with
    | some kw => .invalid (kw ++ " operations are not allowed")
    | none =>
      if multiStatement query then
        .invalid "Multiple statements are not allowed"
      else
        .valid

def MAX_QUERY_TIME_MS : Nat := 30000
def MAX_ROWS_RETURNED : Nat := 1000

/-- The `cleanQuery` step of `executeSQL`: trim, drop one trailing
semicolon, trim again. -/
def stripTrailingSemicolon (q : String) : String :=
  let c := jsTrimList q.data
  String.mk (if c.getLast? = some ';' then jsTrimList c.dropLast else c)

/-- The final statement `executeSQL` sends: unchanged when `\bLIMIT\b` (any
case) already occurs, else with " LIMIT 1000" appended. -/
def finalQueryOf (q : String) : String :=
  let cleanQuery := stripTrailingSemicolon q
  if containsWholeWordCI "LIMIT" cleanQuery then cleanQuery
  else cleanQuery ++ " LIMIT " ++ toString MAX_ROWS_RETURNED

/-- `executeSQL` of the rag route, modelled as the ordered list of SQL
commands it sends to the database; a validation failure throws before any
command is sent. -/
def executeSQL (query : String) : Except String (List String) :=
  match validateSQL query with
  | .invalid err => .error err
  | .valid =>
      .ok ["BEGIN TRANSACTION READ ONLY",
           "SET LOCAL statement_timeout = " ++ toString MAX_QUERY_TIME_MS,
           finalQueryOf query,
           "COMMIT"]

/-- Outcome of the playground POST /query handler: an HTTP rejection, or
execution of a list of SQL commands. -/
inductive PlaygroundOutcome
  | rejected (status : Nat) (error : String)
  | executed (commands : List String)
deriving DecidableEq

/-- The playground POST /query handler: empty-query guards, keyword loop,
multiple-statement check, SELECT/WITH prefix check — in that order — then
`db.execute(sql.raw(trimmedQuery))` directly (no transaction wrapper, no
timeout, no LIMIT injection). -/
def playgroundQuery (query : String) : PlaygroundOutcome :=
  if query = "" then .rejected 400 "Query is required and must be a string"
  else
    let trimmedQuery := jsTrim query
    if trimmedQuery = "" then .rejected 400 "Query cannot be empty"
    else
      match findBannedKeyword dangerousKeywords trimmedQuery with
      | some kw =>
          .rejected 403
            ("Query rejected: " ++ kw ++ " operations are not allowed in playground mode")
      | none =>
          if multiStatement trimmedQuery then
            .rejected 403 "Multiple statements are not allowed. Execute one query at a time."
          else if notReadOnlyStart trimmedQuery then
            .rejected 403 "Only SELECT queries are allowed in playground mode"
          else
            .executed [trimmedQuery]

end Sandbox

end FootballRag

namespace FootballRag.Sandbox

/-! ### Lemmas about the whole-word keyword search -/

theorem wwSearch_cons_of_tail (kw : List Char) (prev : Option Char) (c : Char)
    (cs : List Char) (h : wwSearch kw (some c) cs = true) :
    wwSearch kw prev (c :: cs) = true := by
  simp [wwSearch, h]

theorem wwSearch_append_right (kw : List Char) (c : Char) (tail : List Char)
    (h : wwSearch kw (some c) tail = true) :
    ∀ (pre : List Char) (prev : Option Char),
      wwSearch kw prev (pre ++ c :: tail) = true := by
  intro pre
  induction pre with
  | nil => intro prev; exact wwSearch_cons_of_tail kw prev c tail h
  | cons p ps ih =>
      intro prev
      have hp := ih (some p)
      simp [wwSearch, hp]

/-- Appending " LIMIT 1000" to any string yields a string in which `LIMIT`
occurs as a whole word. -/
theorem containsLimit_of_append (s : String) :
    containsWholeWordCI "LIMIT" (s ++ " LIMIT " ++ toString MAX_ROWS_RETURNED) = true := by
  have h1000 : (toString MAX_ROWS_RETURNED).data = ['1', '0', '0', '0'] := by decide
  have hdata : (s ++ " LIMIT " ++ toString MAX_ROWS_RETURNED).data
      = s.data ++ ' ' :: "LIMIT 1000".data := by
    simp [String.data_append, h1000]
  unfold containsWholeWordCI
  rw [hdata]
  exact wwSearch_append_right "LIMIT".data ' ' "LIMIT 1000".data (by decide) s.data none

/-- The final statement sent by `executeSQL` always contains a whole-word
`LIMIT`. -/
theorem finalQueryOf_hasLimit (q : String) :
    containsWholeWordCI "LIMIT" (finalQueryOf q) = true := by
  unfold finalQueryOf
  by_cases h : containsWholeWordCI "LIMIT" (stripTrailingSemicolon q) = true
  · simp [h]
  · simp only [Bool.not_eq_true] at h
    simp only [h, if_neg Bool.false_ne_true]
    exact containsLimit_of_append (stripTrailingSemicolon q)

/-! ### C2 -/

/-- C2 (counterexample): the statement "SELECT 1" passes the playground
route's validation, and the route then executes it verbatim: the single
command sent to the database is the statement itself — no read-only
transaction is opened, no statement timeout is set, and no LIMIT clause is
appended. -/
theorem c2_playground_executes_unguarded :
    playgroundQuery "SELECT 1" = PlaygroundOutcome.executed ["SELECT 1"] ∧
    "BEGIN TRANSACTION READ ONLY" ∉ (["SELECT 1"] : List String) ∧
    "SET LOCAL statement_timeout = 30000" ∉ (["SELECT 1"] : List String) ∧
    containsWholeWordCI "LIMIT" "SELECT 1" = false := by
  refine ⟨by decide, by decide, by decide, by decide⟩

/-- C2 (amended): a statement that passes the chat sandbox's `validateSQL`
is executed by `executeSQL` inside a read-only transaction with a 30000 ms
statement timeout; the executed statement always carries a whole-word
LIMIT clause — unchanged when one is present, with " LIMIT 1000" appended
otherwise.  (The playground /query route executes its validated statements
directly, with none of these guards.) -/
theorem c2_executeSQL_guards (q : String) (h : validateSQL q = SqlValidation.valid) :
    executeSQL q = Except.ok
        ["BEGIN TRANSACTION READ ONLY",
         "SET LOCAL statement_timeout = " ++ toString MAX_QUERY_TIME_MS,
         finalQueryOf q,
         "COMMIT"]
    ∧ MAX_QUERY_TIME_MS = 30000
    ∧ MAX_ROWS_RETURNED = 1000
    ∧ containsWholeWordCI "LIMIT" (finalQueryOf q) = true
    ∧ (containsWholeWordCI "LIMIT" (stripTrailingSemicolon q) = false →
        finalQueryOf q = stripTrailingSemicolon q ++ " LIMIT " ++ toString MAX_ROWS_RETURNED)
    ∧ (containsWholeWordCI "LIMIT" (stripTrailingSemicolon q) = true →
        finalQueryOf q = stripTrailingSemicolon q) := by
  refine ⟨?_, rfl, rfl, finalQueryOf_hasLimit q, ?_, ?_⟩
  · unfold executeSQL
    rw [h]
  · intro hno
    unfold finalQueryOf
    simp [hno]
  · intro hyes
    unfold finalQueryOf
    simp [hyes]

/-- Witness for `c2_executeSQL_guards` at the concrete statement
"SELECT 1". -/
theorem c2_executeSQL_guards_witness :
    validateSQL "SELECT 1" = SqlValidation.valid ∧
    executeSQL "SELECT 1" = Except.ok
        ["BEGIN TRANSACTION READ ONLY",
         "SET LOCAL statement_timeout = " ++ toString MAX_QUERY_TIME_MS,
         finalQueryOf "SELECT 1",
         "COMMIT"] :=
  ⟨by decide, (c2_executeSQL_guards "SELECT 1" (by decide)).1⟩

/-! ### C3 -/

/-- C3: both sandbox validators reject — before any SQL command is issued —
every statement that contains a listed mutating keyword as a whole word
(case-insensitively), or more than one semicolon-delimited statement, or
does not lexically start with SELECT or WITH; each rejection is a
structured error value naming a violated rule, illustrated on the spec's
three example inputs. -/
theorem c3_sandbox_rejects (q : String) :
    (((∃ kw ∈ DANGEROUS_KEYWORDS, containsWholeWordCI kw q = true)
        ∨ multiStatement q = true ∨ notReadOnlyStart q = true) →
      (∃ e, validateSQL q = SqlValidation.invalid e)
      ∧ (∃ e, executeSQL q = Except.error e))
    ∧ (((∃ kw ∈ dangerousKeywords, containsWholeWordCI kw (jsTrim q) = true)
        ∨ multiStatement (jsTrim q) = true ∨ notReadOnlyStart (jsTrim q) = true) →
      ∃ s e, playgroundQuery q = PlaygroundOutcome.rejected s e)
    ∧ playgroundQuery "DELETE FROM players" = PlaygroundOutcome.rejected 403
        "Query rejected: DELETE operations are not allowed in playground mode"
    ∧ validateSQL "DELETE FROM players" = SqlValidation.invalid
        "Only SELECT queries are allowed"
    ∧ playgroundQuery "SELECT 1; SELECT 2" = PlaygroundOutcome.rejected 403
        "Multiple statements are not allowed. Execute one query at a time."
    ∧ validateSQL "SELECT a where update x set y=1" = SqlValidation.invalid
        "UPDATE operations are not allowed" := by
  refine ⟨?_, ?_, by decide, by decide, by decide, by decide⟩
  · intro h
    have hv : ∃ e, validateSQL q = SqlValidation.invalid e := by
      unfold validateSQL
      by_cases hs : notReadOnlyStart q = true
      · exact ⟨"Only SELECT queries are allowed", by simp [hs]⟩
      · simp only [Bool.not_eq_true] at hs
        rcases hfind : findBannedKeyword DANGEROUS_KEYWORDS q with _ | kw
        · by_cases hm : multiStatement q = true
          · exact ⟨"Multiple statements are not allowed", by simp [hs, hfind, hm]⟩
          · exfalso
            rcases h with ⟨kw, hkw, hc⟩ | hm2 | hs2
            · have := List.find?_eq_none.mp hfind kw hkw
              simp [hc] at this
            · exact hm hm2
            · simp [hs2] at hs
        · exact ⟨kw ++ " operations are not allowed", by simp [hs, hfind]⟩
    refine ⟨hv, ?_⟩
    rcases hv with ⟨e, he⟩
    exact ⟨e, by unfold executeSQL; rw [he]⟩
  · intro h
    unfold playgroundQuery
    by_cases h0 : q = ""
    · exact ⟨400, "Query is required and must be a string", by simp [h0]⟩
    · by_cases ht : jsTrim q = ""
      · exact ⟨400, "Query cannot be empty", by simp [h0, ht]⟩
      · rcases hfind : findBannedKeyword dangerousKeywords (jsTrim q) with _ | kw
        · by_cases hm : multiStatement (jsTrim q) = true
          · exact ⟨403, "Multiple statements are not allowed. Execute one query at a time.",
              by simp [h0, ht, hfind, hm]⟩
          · by_cases hs : notReadOnlyStart (jsTrim q) = true
            · exact ⟨403, "Only SELECT queries are allowed in playground mode",
                by simp [h0, ht, hfind, hm, hs]⟩
            · exfalso
              rcases h with ⟨kw, hkw, hc⟩ | hm2 | hs2
              · have := List.find?_eq_none.mp hfind kw hkw
                simp [hc] at this
              · exact hm hm2
              · exact hs hs2
        · exact ⟨403, "Query rejected: " ++ kw ++ " operations are not allowed in playground mode",
            by simp [h0, ht, hfind]⟩

/-- Witness for `c3_sandbox_rejects` at the concrete input
"DELETE FROM players". -/
theorem c3_sandbox_rejects_witness :
    (∃ e, validateSQL "DELETE FROM players" = SqlValidation.invalid e)
    ∧ (∃ e, executeSQL "DELETE FROM players" = Except.error e) :=
  (c3_sandbox_rejects "DELETE FROM players").1
    (Or.inl ⟨"DELETE", by decide, by decide⟩)

end FootballRag.Sandbox

namespace FootballRag.Etl

/-! ## Filename-derived match ids (load-events.ts `extractMatchId`,
     the inline `parseInt(path.basename(file, ".json"))` guards of
     load-lineups.ts and load-360.ts) -/

/-- Hexadecimal digit, as accepted by JS `parseInt` after a 0x prefix. -/
def isHexDigit (c : Char) : Bool :=
  c.isDigit || ('a' ≤ c && c ≤ 'f') || ('A' ≤ c && c ≤ 'F')

def digitVal (c : Char) : Nat := c.toNat - '0'.toNat

def hexDigitVal (c : Char) : Nat :=
  if c.isDigit then c.toNat - '0'.toNat
  else if 'a' ≤ c && c ≤ 'f' then c.toNat - 'a'.toNat + 10
  else c.toNat - 'A'.toNat + 10

/-- Value of a decimal digit string (most significant first). -/
def decValue (cs : List Char) : Nat :=
  cs.foldl (fun acc c => acc * 10 + digitVal c) 0

/-- Value of a hexadecimal digit string (most significant first). -/
def hexValue (cs : List Char) : Nat :=
  cs.foldl (fun acc c => acc * 16 + hexDigitVal c) 0

/-- JS `parseInt(s)` with no radix argument: skip leading whitespace, an
optional sign, then either a 0x/0X-prefixed hexadecimal literal or the
longest decimal-digit prefix; `none` models `NaN`. -/
def jsParseInt (s : String) : Option Int :=
  let cs := s.data.dropWhile Char.isWhitespace
  let sign : Int := if cs.take 1 = ['-'] then -1 else 1
  let cs2 := if cs.take 1 = ['-'] ∨ cs.take 1 = ['+'] then cs.drop 1 else cs
  if cs2.take 2 = ['0', 'x'] ∨ cs2.take 2 = ['0', 'X'] then
    let ds := (cs2.drop 2).takeWhile isHexDigit
    if ds.isEmpty then none else some (sign * (hexValue ds : Int))
  else
    let ds := cs2.takeWhile Char.isDigit
    if ds.isEmpty then none else some (sign * (decValue ds : Int))

/-- `path.basename(filePath)`: the part after the last path separator. -/
def basename (filePath : String) : String :=
  (((filePath.data.splitOnP (· = '/')).getLast?).getD []).asString

/-- Removal of a trailing ".json" extension, as in
`path.basename(filePath, ".json")`. -/
def stripJsonSuffix (name : String) : String :=
  if name.data.reverse.take 5 = ".json".data.reverse then
    (name.data.take (name.data.length - 5)).asString
  else name

/-- `parseInt(path.basename(file, ".json"))`, followed by the
`isNaN(matchId) || matchId <= 0` test shared by all three file-per-match
loaders; `none` means the test fails. -/
def filenameMatchId (filePath : String) : Option Nat :=
  match jsParseInt (stripJsonSuffix (basename filePath)) with
  | none => none
  | some z => if z ≤ 0 then none else some z.toNat

/-- `extractMatchId` of load-events.ts: same test, but a failure throws. -/
def extractMatchId (filePath : String) : Except String Nat :=
  match filenameMatchId filePath with
  | none => .error ("Invalid match_id from filename: " ++ filePath)
  | some matchId => .ok matchId

/-- The claim's reading of a filename that "denotes a positive number":
nonempty, decimal digits only, positive value.  (Refinement reference only;
the code's behaviour is `filenameMatchId`.) -/
def denotesPositiveNumber (s : String) : Bool :=
  !s.data.isEmpty && s.data.all Char.isDigit && decide (0 < decValue s.data)

/-! ## Core event rows (load-events.ts PHASE 1) -/

/-- A `{ id, name }` reference object of the source JSON. -/
structure IdName where
  id : Nat
  name : String
deriving DecidableEq

/-- One event object of an events file, mirroring the `EventJson`
TypeScript interface.  Fields read through `?.` are `Option`s; the
subtype payloads (`pass`, `shot`, …) are modelled as opaque `Option Unit`
since the loader only branches on their presence (JS truthiness) and the
claims do not concern the copied payload fields.  The `"50_50"` payload is
named `fifty_fifty`. -/
structure EventJson where
  id : String
  index : Nat
  period : Nat
  timestamp : String
  minute : Nat
  second : Nat
  type : IdName
  possession : Nat
  possession_team : IdName
  play_pattern : Option IdName
  team : IdName
  player : Option IdName
  position : Option IdName
  location : Option (ℚ × ℚ)
  duration : Option ℚ
  under_pressure : Option Bool
  off_camera : Option Bool
  out : Option Bool
  counterpress : Option Bool
  related_events : Option (List String)
  pass : Option Unit
  shot : Option Unit
  carry : Option Unit
  dribble : Option Unit
  duel : Option Unit
  block : Option Unit
  interception : Option Unit
  clearance : Option Unit
  ball_receipt : Option Unit
  ball_recovery : Option Unit
  fifty_fifty : Option Unit
  foul_committed : Option Unit
  bad_behaviour : Option Unit
  goalkeeper : Option Unit
deriving DecidableEq

/-- JS `obj?.id || null` on an optional `{id, name}`: an id of 0 is falsy
and also maps to null. -/
def idOrNull (o : Option IdName) : Option Nat :=
  match o with
  | none => none
  | some v => if v.id = 0 then none else some v.id

/-- `parseTimestamp` of load-events.ts (the identity: PostgreSQL accepts
the HH:MM:SS.mmm format directly). -/
def parseTimestamp (ts : String) : String := ts

/-- One row of the `events` table, as built in PHASE 1 of the events ETL
(the numeric `location`/`duration` values are kept as numbers rather than
their decimal string images). -/
structure EventRow where
  id : String
  index : Nat
  matchId : Nat
  period : Nat
  timestamp : String
  minute : Nat
  second : Nat
  typeId : Nat
  possession : Nat
  possessionTeamId : Nat
  playPatternId : Option Nat
  teamId : Nat
  playerId : Option Nat
  positionId : Option Nat
  locationX : Option ℚ
  locationY : Option ℚ
  duration : Option ℚ
  underPressure : Bool
  offCamera : Bool
  out : Bool
  counterpress : Bool
  rawJson : EventJson
deriving DecidableEq

/-- The `eventData` object built for each event in PHASE 1: every column
from the payload except `matchId`, which is the filename-derived argument
(`// CRITICAL: Extracted from filename!`). -/
def toEventRow (matchId : Nat) (event : EventJson) : EventRow :=
  { id := event.id
    index := event.index
    matchId := matchId
    period := event.period
    timestamp := parseTimestamp event.timestamp
    minute := event.minute
    second := event.second
    typeId := event.type.id
    possession := event.possession
    possessionTeamId := event.possession_team.id
    playPatternId := idOrNull event.play_pattern
    teamId := event.team.id
    playerId := idOrNull event.player
    positionId := idOrNull event.position
    locationX := event.location.map Prod.fst
    locationY := event.location.map Prod.snd
    duration := event.duration
    underPressure := event.under_pressure.getD false
    offCamera := event.off_camera.getD false
    out := event.out.getD false
    counterpress := event.counterpress.getD false
    rawJson := event }

/-! ## Batching of core event inserts (load-events.ts PHASE 1) -/

/-- `EVENT_BATCH_SIZE` (500 events × 20 fields = 10k parameters). -/
def EVENT_BATCH_SIZE : Nat := 500

/-- The PHASE 1 buffering loop: push each row, flush the buffer as one
insert batch as soon as it reaches `EVENT_BATCH_SIZE`, and flush the
remainder at the end.  The accumulator is kept reversed. -/
def eventBatchesGo {α : Type} : List α → List α → List (List α)
  | [], batch => if batch.isEmpty then [] else [batch.reverse]
  | r :: rs, batch =>
      let b := r :: batch
      if EVENT_BATCH_SIZE ≤ b.length then b.reverse :: eventBatchesGo rs []
      else eventBatchesGo rs b

/-- The insert batches issued for a stream of core event rows. -/
def eventBatches {α : Type} (rows : List α) : List (List α) :=
  eventBatchesGo rows []

/-! ## Subtype tables (load-events.ts PHASE 2, `loadSubtypeTables`) -/

/-- The fifteen destination subtype tables. -/
inductive SubtypeTable
  | passes | shots | carries | dribbles | pressures | duels | blocks
  | interceptions | clearances | ballReceipts | ballRecoveries
  | fiftyFifties | fouls | badBehaviours | goalkeeperEvents
deriving DecidableEq

/-- One subtype row, identified by destination table and owning event id
(the payload columns copied into the row are not modelled; the claims
concern which row exists). -/
structure SubtypeRow where
  table : SubtypeTable
  eventId : String
deriving DecidableEq

/-- The per-event body of `loadSubtypeTables`: each `if` mirrors one of
the source's fifteen independent pushes (note type 17 pressures has no
payload-presence condition, and fouls accept type 21 or 22). -/
def subtypeRowsOf (event : EventJson) : List SubtypeRow :=
  (if event.type.id = 30 ∧ event.pass.isSome then [⟨.passes, event.id⟩] else [])
  ++ (if event.type.id = 16 ∧ event.shot.isSome then [⟨.shots, event.id⟩] else [])
  ++ (if event.type.id = 43 ∧ event.carry.isSome then [⟨.carries, event.id⟩] else [])
  ++ (if event.type.id = 14 ∧ event.dribble.isSome then [⟨.dribbles, event.id⟩] else [])
  ++ (if event.type.id = 17 then [⟨.pressures, event.id⟩] else [])
  ++ (if event.type.id = 4 ∧ event.duel.isSome then [⟨.duels, event.id⟩] else [])
  ++ (if event.type.id = 6 ∧ event.block.isSome then [⟨.blocks, event.id⟩] else [])
  ++ (if event.type.id = 10 ∧ event.interception.isSome then [⟨.interceptions, event.id⟩] else [])
  ++ (if event.type.id = 9 ∧ event.clearance.isSome then [⟨.clearances, event.id⟩] else [])
  ++ (if event.type.id = 42 ∧ event.ball_receipt.isSome then [⟨.ballReceipts, event.id⟩] else [])
  ++ (if event.type.id = 2 ∧ event.ball_recovery.isSome then [⟨.ballRecoveries, event.id⟩] else [])
  ++ (if event.type.id = 33 ∧ event.fifty_fifty.isSome then [⟨.fiftyFifties, event.id⟩] else [])
  ++ (if (event.type.id = 21 ∨ event.type.id = 22) ∧ event.foul_committed.isSome then
        [⟨.fouls, event.id⟩] else [])
  ++ (if event.type.id = 24 ∧ event.bad_behaviour.isSome then [⟨.badBehaviours, event.id⟩] else [])
  ++ (if event.type.id = 23 ∧ event.goalkeeper.isSome then [⟨.goalkeeperEvents, event.id⟩] else [])

/-- The subtype table a type code selects, if any — the numeric type-code
lookup of the spec. -/
def subtypeTableFor (typeId : Nat) : Option SubtypeTable :=
  if typeId = 30 then some .passes
  else if typeId = 16 then some .shots
  else if typeId = 43 then some .carries
  else if typeId = 14 then some .dribbles
  else if typeId = 17 then some .pressures
  else if typeId = 4 then some .duels
  else if typeId = 6 then some .blocks
  else if typeId = 10 then some .interceptions
  else if typeId = 9 then some .clearances
  else if typeId = 42 then some .ballReceipts
  else if typeId = 2 then some .ballRecoveries
  else if typeId = 33 then some .fiftyFifties
  else if typeId = 21 ∨ typeId = 22 then some .fouls
  else if typeId = 24 then some .badBehaviours
  else if typeId = 23 then some .goalkeeperEvents
  else none

/-! ## Loader runs over a set of source files (for the corrupt-file
     failure semantics) -/

/-- A source file's JSON content: either unparseable (`JSON.parse`
throws) or a parsed value. -/
inductive FileContent (α : Type)
  | corrupt
  | parsed (value : α)
deriving DecidableEq

/-- A source file: its name (as listed by `readdirSync`) and content. -/
structure SrcFile (α : Type) where
  name : String
  content : FileContent α
deriving DecidableEq

/-- PHASE 1 of `loadEventsETL` over a file list: per file, `extractMatchId`
(which throws on a bad name) then `JSON.parse` (which throws on corrupt
content) — neither is wrapped in a try/catch, so either error aborts the
whole run (caught only by the top-level `.catch`, which exits non-zero).
On success: the concatenated core event rows. -/
def loadEventsPhase1 : List (SrcFile (List EventJson)) → Except String (List EventRow)
  | [] => .ok []
  | f :: rest =>
      match extractMatchId f.name with
      | .error e => .error e
      | .ok matchId =>
          match f.content with
          | .corrupt => .error ("Unexpected token in JSON: " ++ f.name)
          | .parsed evs =>
              match loadEventsPhase1 rest with
              | .error e => .error e
              | .ok rows => .ok (evs.map (toEventRow matchId) ++ rows)

/-- `loadAllMatches` of load-matches.ts: concatenates every file's match
array; `JSON.parse` of a corrupt file is not guarded, so it aborts the
run. -/
def loadAllMatches {α : Type} : List (SrcFile (List α)) → Except String (List α)
  | [] => .ok []
  | f :: rest =>
      match f.content with
      | .corrupt => .error ("Unexpected token in JSON: " ++ f.name)
      | .parsed ms =>
          match loadAllMatches rest with
          | .error e => .error e
          | .ok tail => .ok (ms ++ tail)

/-- `loadLineupBatch` of load-lineups.ts / `loadFileBatch` of load-360.ts:
a file whose name fails the match-id test is skipped (`continue`), and
`JSON.parse` is wrapped in try/catch — a corrupt file is skipped silently
and the loop continues with the remaining files. -/
def loadFileBatch {α : Type} (files : List (SrcFile α)) : List (Nat × α) :=
  files.filterMap fun f =>
    match filenameMatchId f.name with
    | none => none
    | some matchId =>
        match f.content with
        | .corrupt => none
        | .parsed v => some (matchId, v)

/-- Whether a source file's content is unparseable. -/
def isCorrupt {α : Type} (f : SrcFile α) : Bool :=
  match f.content with
  | .corrupt => true
  | .parsed _ => false

end FootballRag.Etl

namespace FootballRag.Etl

/-! ### C4: subtype exclusivity -/

/-- Case-analysis normal form of `loadSubtypeTables`' per-event body: the
fifteen independent pushes collapse into a single type-code dispatch
because the guarding type codes are pairwise disjoint. -/
theorem subtypeRowsOf_eq (e : EventJson) :
    subtypeRowsOf e =
      (if e.type.id = 30 then
        (if e.pass.isSome then [⟨SubtypeTable.passes, e.id⟩] else [])
      else if e.type.id = 16 then
        (if e.shot.isSome then [⟨SubtypeTable.shots, e.id⟩] else [])
      else if e.type.id = 43 then
        (if e.carry.isSome then [⟨SubtypeTable.carries, e.id⟩] else [])
      else if e.type.id = 14 then
        (if e.dribble.isSome then [⟨SubtypeTable.dribbles, e.id⟩] else [])
      else if e.type.id = 17 then [⟨SubtypeTable.pressures, e.id⟩]
      else if e.type.id = 4 then
        (if e.duel.isSome then [⟨SubtypeTable.duels, e.id⟩] else [])
      else if e.type.id = 6 then
        (if e.block.isSome then [⟨SubtypeTable.blocks, e.id⟩] else [])
      else if e.type.id = 10 then
        (if e.interception.isSome then [⟨SubtypeTable.interceptions, e.id⟩] else [])
      else if e.type.id = 9 then
        (if e.clearance.isSome then [⟨SubtypeTable.clearances, e.id⟩] else [])
      else if e.type.id = 42 then
        (if e.ball_receipt.isSome then [⟨SubtypeTable.ballReceipts, e.id⟩] else [])
      else if e.type.id = 2 then
        (if e.ball_recovery.isSome then [⟨SubtypeTable.ballRecoveries, e.id⟩] else [])
      else if e.type.id = 33 then
        (if e.fifty_fifty.isSome then [⟨SubtypeTable.fiftyFifties, e.id⟩] else [])
      else if e.type.id = 21 ∨ e.type.id = 22 then
        (if e.foul_committed.isSome then [⟨SubtypeTable.fouls, e.id⟩] else [])
      else if e.type.id = 24 then
        (if e.bad_behaviour.isSome then [⟨SubtypeTable.badBehaviours, e.id⟩] else [])
      else if e.type.id = 23 then
        (if e.goalkeeper.isSome then [⟨SubtypeTable.goalkeeperEvents, e.id⟩] else [])
      else []) := by
  unfold subtypeRowsOf
  by_cases h30 : e.type.id = 30
  · simp [h30]
  · by_cases h16 : e.type.id = 16
    · simp [h16]
    · by_cases h43 : e.type.id = 43
      · simp [h43]
      · by_cases h14 : e.type.id = 14
        · simp [h14]
        · by_cases h17 : e.type.id = 17
          · simp [h17]
          · by_cases h4 : e.type.id = 4
            · simp [h4]
            · by_cases h6 : e.type.id = 6
              · simp [h6]
              · by_cases h10 : e.type.id = 10
                · simp [h10]
                · by_cases h9 : e.type.id = 9
                  · simp [h9]
                  · by_cases h42 : e.type.id = 42
                    · simp [h42]
                    · by_cases h2 : e.type.id = 2
                      · simp [h2]
                      · by_cases h33 : e.type.id = 33
                        · simp [h33]
                        · by_cases h21 : e.type.id = 21
                          · simp [h21]
                          · by_cases h22 : e.type.id = 22
                            · simp [h22]
                            · by_cases h24 : e.type.id = 24
                              · simp [h24, h21, h22]
                              · by_cases h23 : e.type.id = 23
                                · simp [h23, h21, h22, h24]
                                · simp [h30, h16, h43, h14, h17, h4, h6, h10,
                                        h9, h42, h2, h33, h21, h22, h24, h23]

set_option maxHeartbeats 1600000 in
/-- C4: for every event record, the fifteen subtype pushes of
`loadSubtypeTables` produce at most one subtype row; any produced row lands
in the table selected by the event's numeric type code; a type code outside
the known dispatch produces no subtype row at all; and a type-30 event with
a pass payload produces exactly one `passes` row. -/
theorem c4_subtype_exclusivity (e : EventJson) :
    (subtypeRowsOf e).length ≤ 1
    ∧ (∀ r ∈ subtypeRowsOf e, some r.table = subtypeTableFor e.type.id)
    ∧ (subtypeTableFor e.type.id = none → subtypeRowsOf e = [])
    ∧ (e.type.id = 30 → e.pass.isSome = true →
        subtypeRowsOf e = [⟨SubtypeTable.passes, e.id⟩]) := by
  have hrows := subtypeRowsOf_eq e
  rw [hrows]
  unfold subtypeTableFor
  by_cases h30 : e.type.id = 30
  · cases hp : e.pass <;> simp [h30, hp]
  · by_cases h16 : e.type.id = 16
    · cases hp : e.shot <;> simp [h16, hp]
    · by_cases h43 : e.type.id = 43
      · cases hp : e.carry <;> simp [h43, hp]
      · by_cases h14 : e.type.id = 14
        · cases hp : e.dribble <;> simp [h14, hp]
        · by_cases h17 : e.type.id = 17
          · simp [h17]
          · by_cases h4 : e.type.id = 4
            · cases hp : e.duel <;> simp [h4, hp]
            · by_cases h6 : e.type.id = 6
              · cases hp : e.block <;> simp [h6, hp]
              · by_cases h10 : e.type.id = 10
                · cases hp : e.interception <;> simp [h10, hp]
                · by_cases h9 : e.type.id = 9
                  · cases hp : e.clearance <;> simp [h9, hp]
                  · by_cases h42 : e.type.id = 42
                    · cases hp : e.ball_receipt <;> simp [h42, hp]
                    · by_cases h2 : e.type.id = 2
                      · cases hp : e.ball_recovery <;> simp [h2, hp]
                      · by_cases h33 : e.type.id = 33
                        · cases hp : e.fifty_fifty <;> simp [h33, hp]
                        · by_cases h21 : e.type.id = 21
                          · cases hp : e.foul_committed <;> simp [h21, hp]
                          · by_cases h22 : e.type.id = 22
                            · cases hp : e.foul_committed <;> simp [h22, hp, h21]
                            · by_cases h24 : e.type.id = 24
                              · cases hp : e.bad_behaviour <;>
                                  simp [h24, hp, h21, h22]
                              · by_cases h23 : e.type.id = 23
                                · cases hp : e.goalkeeper <;>
                                    simp [h23, hp, h21, h22, h24]
                                · simp [h30, h16, h43, h14, h17, h4, h6, h10,
                                        h9, h42, h2, h33, h21, h22, h24, h23]

/-- A concrete pass event (type 30, pass payload present). -/
def samplePassEvent : EventJson :=
  { id := "pass-1", index := 1, period := 1, timestamp := "00:00:00.000",
    minute := 0, second := 0, type := ⟨30, "Pass"⟩, possession := 1,
    possession_team := ⟨10, "Home"⟩, play_pattern := none, team := ⟨10, "Home"⟩,
    player := some ⟨7, "Seven"⟩, position := none, location := none,
    duration := none, under_pressure := none, off_camera := none, out := none,
    counterpress := none, related_events := none, pass := some (), shot := none,
    carry := none, dribble := none, duel := none, block := none,
    interception := none, clearance := none, ball_receipt := none,
    ball_recovery := none, fifty_fifty := none, foul_committed := none,
    bad_behaviour := none, goalkeeper := none }

/-- Witness for `c4_subtype_exclusivity` at a concrete type-30 pass
event. -/
theorem c4_subtype_exclusivity_witness :
    subtypeRowsOf samplePassEvent = [⟨SubtypeTable.passes, "pass-1"⟩] :=
  (c4_subtype_exclusivity samplePassEvent).2.2.2 rfl rfl

/-! ### C5: batch boundary correctness -/

theorem eventBatchesGo_join {α : Type} :
    ∀ (rows batch : List α),
      (eventBatchesGo rows batch).flatten = batch.reverse ++ rows := by
  intro rows
  induction rows with
  | nil =>
      intro batch
      by_cases h : batch = [] <;> simp [eventBatchesGo, h]
  | cons r rs ih =>
      intro batch
      unfold eventBatchesGo
      by_cases h : EVENT_BATCH_SIZE ≤ batch.length + 1
      · simp [h, ih]
      · simp [h, ih (r :: batch)]

theorem eventBatchesGo_sizes {α : Type} :
    ∀ (rows batch : List α), batch.length < EVENT_BATCH_SIZE →
      ∀ b ∈ eventBatchesGo rows batch, b.length ≤ EVENT_BATCH_SIZE := by
  intro rows
  induction rows with
  | nil =>
      intro batch hlt b hb
      by_cases h : batch = []
      · simp [eventBatchesGo, h] at hb
      · simp [eventBatchesGo, h] at hb
        subst hb
        simp [Nat.le_of_lt hlt]
  | cons r rs ih =>
      intro batch hlt b hb
      unfold eventBatchesGo at hb
      by_cases h : EVENT_BATCH_SIZE ≤ batch.length + 1
      · simp [h] at hb
        rcases hb with hb | hb
        · subst hb
          simp
          omega
        · exact ih [] (by simp [EVENT_BATCH_SIZE]) b hb
      · simp [h] at hb
        have hlt2 : (r :: batch).length < EVENT_BATCH_SIZE := by
          simp
          omega
        exact ih (r :: batch) hlt2 b hb

/-- Batch sizes depend only on the row count and the buffered count. -/
def batchSizesModel : Nat → Nat → List Nat
  | 0, b => if b = 0 then [] else [b]
  | n + 1, b =>
      if EVENT_BATCH_SIZE ≤ b + 1 then (b + 1) :: batchSizesModel n 0
      else batchSizesModel n (b + 1)

theorem eventBatchesGo_map_length {α : Type} :
    ∀ (rows batch : List α),
      (eventBatchesGo rows batch).map List.length
        = batchSizesModel rows.length batch.length := by
  intro rows
  induction rows with
  | nil =>
      intro batch
      by_cases h : batch = [] <;>
        simp [eventBatchesGo, batchSizesModel, h, List.length_eq_zero]
  | cons r rs ih =>
      intro batch
      unfold eventBatchesGo batchSizesModel
      by_cases h : EVENT_BATCH_SIZE ≤ batch.length + 1
      · simp [h, ih]
      · simp [h, ih (r :: batch)]

/-- C5: the PHASE 1 buffering loop writes every row in exactly one batch
(the batches concatenate back to the input, in order), never lets a batch
exceed `EVENT_BATCH_SIZE`, and on an input of exactly `EVENT_BATCH_SIZE + 1`
rows issues exactly two batches, of 500 and 1 rows. -/
theorem c5_batch_boundary {α : Type} (rows : List α) :
    (eventBatches rows).flatten = rows
    ∧ (∀ b ∈ eventBatches rows, b.length ≤ EVENT_BATCH_SIZE)
    ∧ (rows.length = EVENT_BATCH_SIZE + 1 →
        (eventBatches rows).map List.length = [EVENT_BATCH_SIZE, 1]) := by
  refine ⟨?_, ?_, ?_⟩
  · simpa using eventBatchesGo_join rows []
  · exact eventBatchesGo_sizes rows [] (by simp [EVENT_BATCH_SIZE])
  · intro h
    rw [eventBatches, eventBatchesGo_map_length, h]
    simp only [List.length_nil]
    decide

/-- Witness for `c5_batch_boundary` on a concrete 501-row input. -/
theorem c5_batch_boundary_witness :
    (eventBatches (List.replicate 501 (0 : Nat))).map List.length
      = [EVENT_BATCH_SIZE, 1] :=
  (c5_batch_boundary (List.replicate 501 (0 : Nat))).2.2 (by rw [List.length_replicate]; rfl)

/-! ### C7: filename-derived match identity -/

theorem char_digit_props (c : Char) (h : c.isDigit = true) :
    c.isWhitespace = false ∧ c ≠ '-' ∧ c ≠ '+' ∧ c ≠ 'x' ∧ c ≠ 'X' := by
  refine ⟨?_, ?_, ?_, ?_, ?_⟩
  · cases hw : c.isWhitespace
    · rfl
    · exfalso
      simp only [Char.isWhitespace, Bool.or_eq_true, decide_eq_true_eq] at hw
      rcases hw with ((rfl | rfl) | rfl) | rfl <;> exact absurd h (by decide)
  · intro h'
    subst h'
    exact absurd h (by decide)
  · intro h'
    subst h'
    exact absurd h (by decide)
  · intro h'
    subst h'
    exact absurd h (by decide)
  · intro h'
    subst h'
    exact absurd h (by decide)

/-- `parseInt` on an all-digit nonempty string returns its decimal
value. -/
theorem jsParseInt_digits (s : String) (hne : s.data ≠ [])
    (hdig : ∀ c ∈ s.data, c.isDigit = true) :
    jsParseInt s = some ((decValue s.data : Nat) : Int) := by
  obtain ⟨c, cs, hs⟩ := List.exists_cons_of_ne_nil hne
  have hc : c.isDigit = true := hdig c (by rw [hs]; exact List.mem_cons_self c cs)
  obtain ⟨hws, hminus, hplus, hx, hX⟩ := char_digit_props c hc
  have hdrop : List.dropWhile Char.isWhitespace s.data = c :: cs := by
    rw [hs, List.dropWhile_cons, hws]
    simp
  have htake : List.takeWhile Char.isDigit (c :: cs) = c :: cs := by
    rw [List.takeWhile_eq_self_iff]
    intro x hxmem
    exact hdig x (by rw [hs]; exact hxmem)
  have hsign : ¬ ((c :: cs).take 1 = ['-']) := by
    simp [hminus]
  have hor : ¬ ((c :: cs).take 1 = ['-'] ∨ (c :: cs).take 1 = ['+']) := by
    simp [hminus, hplus]
  have hhex : ¬ ((c :: cs).take 2 = ['0', 'x'] ∨ (c :: cs).take 2 = ['0', 'X']) := by
    cases cs with
    | nil => simp
    | cons d ds =>
        have hd : d.isDigit = true := hdig d (by rw [hs]; simp)
        obtain ⟨_, _, _, hdx, hdX⟩ := char_digit_props d hd
        simp [hdx, hdX]
  unfold jsParseInt
  rw [hdrop]
  dsimp only
  rw [if_neg hsign, if_neg hor, if_neg hhex, htake]
  simp [hs]

/-- C7 (counterexample): the file name "12abc.json" does not denote a
positive number (its base name "12abc" is not numeric), yet
`extractMatchId` does not throw — `parseInt` accepts the numeric prefix
and the loader uses match id 12. -/
theorem c7_nonnumeric_name_accepted :
    extractMatchId "12abc.json" = Except.ok 12
    ∧ denotesPositiveNumber (stripJsonSuffix (basename "12abc.json")) = false := by
  exact ⟨by rfl, by decide⟩

/-- C7 (amended): `extractMatchId` throws exactly when the
`parseInt`-derived guard fails (no parseable leading integer, or a value
≤ 0); every accepted id is positive; a base name that is genuinely a
positive decimal numeral is accepted with that value; and every core
`events` row carries the filename-derived match id passed to the row
builder — the payload contributes every other column but never the match
id. -/
theorem c7_filename_match_identity (filePath : String) (n : Nat) (matchId : Nat)
    (e : EventJson) :
    (extractMatchId filePath = Except.ok n → 0 < n)
    ∧ (denotesPositiveNumber (stripJsonSuffix (basename filePath)) = true →
        extractMatchId filePath
          = Except.ok (decValue (stripJsonSuffix (basename filePath)).data))
    ∧ ((∃ msg, extractMatchId filePath = Except.error msg)
        ↔ filenameMatchId filePath = none)
    ∧ (toEventRow matchId e).matchId = matchId := by
  refine ⟨?_, ?_, ?_, rfl⟩
  · intro hok
    have hF : filenameMatchId filePath = some n := by
      unfold extractMatchId at hok
      rcases hG : filenameMatchId filePath with _ | m <;> rw [hG] at hok
      · simp at hok
      · simpa using hok
    unfold filenameMatchId at hF
    rcases hparse : jsParseInt (stripJsonSuffix (basename filePath)) with _ | z <;>
      rw [hparse] at hF
    · simp at hF
    · by_cases hz : z ≤ 0
      · simp [hz] at hF
      · simp [hz] at hF
        omega
  · intro hden
    unfold denotesPositiveNumber at hden
    simp only [Bool.and_eq_true, Bool.not_eq_true', List.isEmpty_eq_false_iff_exists_mem,
      List.all_eq_true, decide_eq_true_eq] at hden
    obtain ⟨⟨hne', hdig⟩, hpos⟩ := hden
    have hne : (stripJsonSuffix (basename filePath)).data ≠ [] := by
      rcases hne' with ⟨x, hx⟩
      intro hnil
      rw [hnil] at hx
      exact absurd hx (List.not_mem_nil x)
    have hparse := jsParseInt_digits (stripJsonSuffix (basename filePath)) hne hdig
    unfold extractMatchId filenameMatchId
    rw [hparse]
    have hnotle : ¬ ((decValue (stripJsonSuffix (basename filePath)).data : Int) ≤ 0) := by
      exact_mod_cast Nat.not_le_of_gt hpos
    simp [hnotle]
  · unfold extractMatchId
    rcases hF : filenameMatchId filePath with _ | m <;> simp

/-- Witness for `c7_filename_match_identity`: the genuinely numeric file
name "15946.json" is accepted with id 15946, and the row builder stamps
the filename-derived id. -/
theorem c7_filename_match_identity_witness :
    extractMatchId "15946.json"
      = Except.ok (decValue (stripJsonSuffix (basename "15946.json")).data)
    ∧ (toEventRow 15946 samplePassEvent).matchId = 15946 :=
  ⟨(c7_filename_match_identity "15946.json" 0 15946 samplePassEvent).2.1 (by decide),
   (c7_filename_match_identity "15946.json" 0 15946 samplePassEvent).2.2.2⟩

/-! ### C1: corrupt-file failure semantics -/

/-- C1 (counterexample): in the events loader a single corrupt file is
fatal — `JSON.parse` is not wrapped in a try/catch, so the run aborts at
the corrupt file instead of skipping it, and the third file is never
processed. -/
theorem c1_corrupt_event_file_fatal :
    loadEventsPhase1
      [⟨"1.json", FileContent.parsed []⟩,
       ⟨"2.json", FileContent.corrupt⟩,
       ⟨"3.json", FileContent.parsed []⟩]
      = Except.error "Unexpected token in JSON: 2.json" := by
  rfl

/-- C1 (amended): the per-batch file readers of the lineups and
360-tracking loaders silently skip corrupt files and process exactly the
remaining files, while in the events and matches loaders the presence of
any corrupt file aborts the whole run with an error. -/
theorem c1_corrupt_file_semantics {α β : Type}
    (files : List (SrcFile α)) (efiles : List (SrcFile (List EventJson)))
    (mfiles : List (SrcFile (List β))) :
    loadFileBatch files = loadFileBatch (files.filter (fun f => !isCorrupt f))
    ∧ ((∃ f ∈ efiles, f.content = FileContent.corrupt) →
        ∃ msg, loadEventsPhase1 efiles = Except.error msg)
    ∧ ((∃ f ∈ mfiles, f.content = FileContent.corrupt) →
        ∃ msg, loadAllMatches mfiles = Except.error msg) := by
  refine ⟨?_, ?_, ?_⟩
  · induction files with
    | nil => rfl
    | cons f fs ih =>
        cases hc : f.content with
        | corrupt =>
            have hcor : isCorrupt f = true := by
              unfold isCorrupt
              rw [hc]
            unfold loadFileBatch at ih ⊢
            rw [List.filter_cons_of_neg (by simp [hcor])]
            rw [List.filterMap_cons]
            rcases hid : filenameMatchId f.name with _ | m
            · simpa [hid] using ih
            · simpa [hid, hc] using ih
        | parsed v =>
            have hcor : isCorrupt f = false := by
              unfold isCorrupt
              rw [hc]
            unfold loadFileBatch at ih ⊢
            rw [List.filter_cons_of_pos (by simp [hcor])]
            rw [List.filterMap_cons, List.filterMap_cons]
            rcases hid : filenameMatchId f.name with _ | m
            · simpa [hid] using ih
            · simpa [hid, hc] using ih
  · intro hcor
    induction efiles with
    | nil =>
        rcases hcor with ⟨f, hf, _⟩
        exact absurd hf (List.not_mem_nil f)
    | cons f fs ih =>
        unfold loadEventsPhase1
        rcases hid : extractMatchId f.name with msg | matchId
        · exact ⟨msg, rfl⟩
        · cases hc : f.content with
          | corrupt => exact ⟨"Unexpected token in JSON: " ++ f.name, rfl⟩
          | parsed evs =>
              have hrest : ∃ f ∈ fs, f.content = FileContent.corrupt := by
                rcases hcor with ⟨g, hg, hgc⟩
                rcases List.mem_cons.mp hg with rfl | hgfs
                · rw [hc] at hgc
                  exact absurd hgc (by simp)
                · exact ⟨g, hgfs, hgc⟩
              rcases ih hrest with ⟨msg, hmsg⟩
              exact ⟨msg, by rw [hmsg]⟩
  · intro hcor
    induction mfiles with
    | nil =>
        rcases hcor with ⟨f, hf, _⟩
        exact absurd hf (List.not_mem_nil f)
    | cons f fs ih =>
        unfold loadAllMatches
        cases hc : f.content with
        | corrupt => exact ⟨"Unexpected token in JSON: " ++ f.name, rfl⟩
        | parsed ms =>
            have hrest : ∃ f ∈ fs, f.content = FileContent.corrupt := by
              rcases hcor with ⟨g, hg, hgc⟩
              rcases List.mem_cons.mp hg with rfl | hgfs
              · rw [hc] at hgc
                exact absurd hgc (by simp)
              · exact ⟨g, hgfs, hgc⟩
            rcases ih hrest with ⟨msg, hmsg⟩
            exact ⟨msg, by rw [hmsg]⟩

/-- Witness for `c1_corrupt_file_semantics` on concrete file lists: the
batch reader skips the corrupt lineups file, and a corrupt file makes the
events and matches runs fail. -/
theorem c1_corrupt_file_semantics_witness :
    loadFileBatch
        [⟨"7.json", FileContent.parsed (0 : Nat)⟩, ⟨"8.json", FileContent.corrupt⟩]
      = loadFileBatch
          (List.filter (fun f => !isCorrupt f)
            [⟨"7.json", FileContent.parsed (0 : Nat)⟩, ⟨"8.json", FileContent.corrupt⟩])
    ∧ (∃ msg,
        loadEventsPhase1 [⟨"2.json", FileContent.corrupt⟩] = Except.error msg)
    ∧ (∃ msg,
        loadAllMatches [⟨"5.json", (FileContent.corrupt : FileContent (List Nat))⟩]
          = Except.error msg) := by
  refine ⟨?_, ?_, ?_⟩
  · exact (c1_corrupt_file_semantics
      [⟨"7.json", FileContent.parsed (0 : Nat)⟩, ⟨"8.json", FileContent.corrupt⟩]
      [⟨"2.json", FileContent.corrupt⟩]
      [⟨"5.json", (FileContent.corrupt : FileContent (List Nat))⟩]).1
  · exact (c1_corrupt_file_semantics
      [⟨"7.json", FileContent.parsed (0 : Nat)⟩, ⟨"8.json", FileContent.corrupt⟩]
      [⟨"2.json", FileContent.corrupt⟩]
      [⟨"5.json", (FileContent.corrupt : FileContent (List Nat))⟩]).2.1
      ⟨⟨"2.json", FileContent.corrupt⟩, by simp, rfl⟩
  · exact (c1_corrupt_file_semantics
      [⟨"7.json", FileContent.parsed (0 : Nat)⟩, ⟨"8.json", FileContent.corrupt⟩]
      [⟨"2.json", FileContent.corrupt⟩]
      [⟨"5.json", (FileContent.corrupt : FileContent (List Nat))⟩]).2.2
      ⟨⟨"5.json", FileContent.corrupt⟩, by simp, rfl⟩

end FootballRag.Etl

namespace FootballRag.Lineups

open FootballRag.Etl

/-! ## Lineups ETL (load-lineups.ts) -/

/-- A parsed "MM:SS" time string (minutes, seconds). -/
structure TimeMS where
  min : Nat
  sec : Nat
deriving DecidableEq

/-- `PositionJSON`: one position stint.  The source `from`/`to` fields are
"MM:SS" strings (or null), modelled parsed; `from` is a Lean keyword, so
the fields are `fromTime`/`toTime`. -/
structure PositionJSON where
  position_id : Nat
  position : String
  fromTime : TimeMS
  toTime : Option TimeMS
  from_period : Nat
  to_period : Option Nat
  start_reason : String
  end_reason : String
deriving DecidableEq

/-- `CardJSON`: one disciplinary event. -/
structure CardJSON where
  time : TimeMS
  card_type : String
  reason : String
  period : Nat
deriving DecidableEq

/-- `PlayerJSON`: one lineup entry.  `country` is optional because the
loader guards every access with `player.country?.name`. -/
structure PlayerJSON where
  player_id : Nat
  player_name : String
  player_nickname : Option String
  jersey_number : Nat
  country : Option Etl.IdName
  cards : List CardJSON
  positions : List PositionJSON
deriving DecidableEq

/-- `LineupJSON`: one team's lineup in a file. -/
structure LineupJSON where
  team_id : Nat
  team_name : String
  lineup : List PlayerJSON
deriving DecidableEq

/-- `player.country?.name` under JS truthiness: absent country, or a
country with an empty name, yields nothing. -/
def countryNameOf (player : PlayerJSON) : Option String :=
  match player.country with
  | none => none
  | some c => if c.name = "" then none else some c.name

/-- `timeStringToInterval`: "MM:SS" → "<m> minutes <s> seconds". -/
def timeStringToInterval (t : TimeMS) : String :=
  toString t.min ++ " minutes " ++ toString t.sec ++ " seconds"

/-- A parsed "MM:SS" value in minutes: `min + sec / 60`. -/
def timeToMinutes (t : TimeMS) : ℚ := (t.min : ℚ) + (t.sec : ℚ) / 60

/-- JS `Math.round`: round half toward positive infinity. -/
def jsRound (q : ℚ) : ℤ := Int.floor (q + 1 / 2)

/-- The loop body of `calculateMinutesPlayed` for one stint: end minus
start in minutes, a null end defaulting to 90 (full-time). -/
def stintMinutes (pos : PositionJSON) : ℚ :=
  let fromMinutes := timeToMinutes pos.fromTime
  let toMinutes : ℚ := match pos.toTime with
    | none => 90
    | some t => timeToMinutes t
  toMinutes - fromMinutes

/-- `calculateMinutesPlayed`: sum the stint durations, then
`Math.round(totalMinutes * 100) / 100` (round to 2 decimals). -/
def calculateMinutesPlayed (positions : List PositionJSON) : ℚ :=
  let totalMinutes := positions.foldl
    (fun totalMinutes pos => totalMinutes + stintMinutes pos) 0
  (jsRound (totalMinutes * 100) : ℚ) / 100

/-- The exact (unrounded) sum of stint durations — the value the claim
says the function returns. -/
def stintSum (positions : List PositionJSON) : ℚ :=
  (positions.map stintMinutes).sum

/-! ## The two passes of `loadLineupsETL` -/

/-- One row of the `players` dimension (the fields the scan pass
collects). -/
structure PlayerDimRow where
  playerId : Nat
  playerName : String
  playerNickname : Option String
deriving DecidableEq

/-- JS `Map.set` keyed by `playerId` on an insertion-ordered list:
replace the existing entry or append. -/
def upsertPlayer (m : List PlayerDimRow) (r : PlayerDimRow) : List PlayerDimRow :=
  if m.any (fun x => x.playerId == r.playerId) then
    m.map (fun x => if x.playerId == r.playerId then r else x)
  else m ++ [r]

/-- The scan pass (Step 1): every player of every team of every readable
file goes into `playersMap`, with no condition on the player's country. -/
def scanPlayers (files : List (SrcFile (List LineupJSON))) : List PlayerDimRow :=
  (loadFileBatch files).foldl
    (fun acc mt =>
      mt.2.foldl
        (fun acc team =>
          team.lineup.foldl
            (fun acc player =>
              upsertPlayer acc
                ⟨player.player_id, player.player_name, player.player_nickname⟩)
            acc)
        acc)
    []

/-- One `player_lineups` fact row. -/
structure PlayerLineupRow where
  matchId : Nat
  teamId : Nat
  playerId : Nat
  jerseyNumber : Nat
  countryId : Nat
  isStarter : Bool
  minutesPlayed : ℚ
  rawJson : PlayerJSON
deriving DecidableEq

/-- One `player_positions` fact row. -/
structure PlayerPositionRow where
  matchId : Nat
  playerId : Nat
  positionId : Nat
  fromTime : String
  toTime : Option String
  fromPeriod : Nat
  toPeriod : Option Nat
  startReason : String
  endReason : String
deriving DecidableEq

/-- One `player_cards` fact row. -/
structure PlayerCardRow where
  matchId : Nat
  playerId : Nat
  time : String
  cardType : String
  reason : String
  period : Nat
deriving DecidableEq

/-- `player.positions[0]?.start_reason === "Starting XI" || false`. -/
def isStarterOf (player : PlayerJSON) : Bool :=
  match player.positions with
  | [] => false
  | p0 :: _ => p0.start_reason == "Starting XI"

/-- The insert pass's `batchLineups` rows (Steps 4-6): a lineup entry
whose `player.country?.name` is absent is skipped (`continue`) before any
row for it is built; `resolve` is the `countryNameToId` map. -/
def batchLineups (resolve : String → Nat)
    (files : List (SrcFile (List LineupJSON))) : List PlayerLineupRow :=
  (loadFileBatch files).flatMap fun mt =>
    mt.2.flatMap fun team =>
      team.lineup.filterMap fun player =>
        match countryNameOf player with
        | none => none
        | some cname =>
            some { matchId := mt.1
                   teamId := team.team_id
                   playerId := player.player_id
                   jerseyNumber := player.jersey_number
                   countryId := resolve cname
                   isStarter := isStarterOf player
                   minutesPlayed := calculateMinutesPlayed player.positions
                   rawJson := player }

/-- The insert pass's `batchPositions` rows: one per stint of every
country-resolved lineup entry. -/
def batchPositions (files : List (SrcFile (List LineupJSON))) : List PlayerPositionRow :=
  (loadFileBatch files).flatMap fun mt =>
    mt.2.flatMap fun team =>
      team.lineup.flatMap fun player =>
        match countryNameOf player with
        | none => []
        | some _ =>
            player.positions.map fun pos =>
              { matchId := mt.1
                playerId := player.player_id
                positionId := pos.position_id
                fromTime := timeStringToInterval pos.fromTime
                toTime := pos.toTime.map timeStringToInterval
                fromPeriod := pos.from_period
                toPeriod := pos.to_period
                startReason := pos.start_reason
                endReason := pos.end_reason }

/-- The insert pass's `batchCards` rows: one per card of every
country-resolved lineup entry. -/
def batchCards (files : List (SrcFile (List LineupJSON))) : List PlayerCardRow :=
  (loadFileBatch files).flatMap fun mt =>
    mt.2.flatMap fun team =>
      team.lineup.flatMap fun player =>
        match countryNameOf player with
        | none => []
        | some _ =>
            player.cards.map fun card =>
              { matchId := mt.1
                playerId := player.player_id
                time := timeStringToInterval card.time
                cardType := card.card_type
                reason := card.reason
                period := card.period }

/-! ### C6: minutes-played derivation -/

/-- C6 (counterexample): for a single stint 00:00–00:20 the exact stint
sum is 1/3 of a minute, but `calculateMinutesPlayed` returns 0.33 — the
function returns the sum rounded to two decimals, not the sum itself. -/
theorem c6_rounding_counterexample :
    calculateMinutesPlayed
        [⟨1, "Goalkeeper", ⟨0, 0⟩, some ⟨0, 20⟩, 1, some 1, "Starting XI", "Substitution - Off"⟩]
      = 33 / 100
    ∧ stintSum
        [⟨1, "Goalkeeper", ⟨0, 0⟩, some ⟨0, 20⟩, 1, some 1, "Starting XI", "Substitution - Off"⟩]
      = 1 / 3
    ∧ (33 / 100 : ℚ) ≠ 1 / 3 := by
  refine ⟨?_, ?_, by norm_num⟩
  · simp only [calculateMinutesPlayed, stintMinutes, timeToMinutes, jsRound,
      List.foldl_cons, List.foldl_nil]
    norm_num
  · simp only [stintSum, stintMinutes, timeToMinutes, List.map_cons, List.map_nil,
      List.sum_cons, List.sum_nil]
    norm_num

theorem foldl_add_stintMinutes (l : List PositionJSON) :
    ∀ a : ℚ,
      l.foldl (fun totalMinutes pos => totalMinutes + stintMinutes pos) a
        = a + (l.map stintMinutes).sum := by
  induction l with
  | nil => intro a; simp
  | cons p ps ih =>
      intro a
      simp only [List.foldl_cons, List.map_cons, List.sum_cons, ih, add_assoc]

/-- C6 (amended): `calculateMinutesPlayed` returns the sum over position
stints of (end minus start) in minutes — a stint with a null end treated
as ending at 90 minutes — rounded to two decimal places
(`Math.round(x * 100) / 100`); in particular for stints [00:00–45:00] and
[45:00–null] it returns exactly 90. -/
theorem c6_minutes_played (positions : List PositionJSON) :
    calculateMinutesPlayed positions = (jsRound (stintSum positions * 100) : ℚ) / 100
    ∧ calculateMinutesPlayed
        [⟨1, "Goalkeeper", ⟨0, 0⟩, some ⟨45, 0⟩, 1, some 1, "Starting XI", "Tactical Shift"⟩,
         ⟨3, "Right Back", ⟨45, 0⟩, none, 2, none, "Tactical Shift", "Final Whistle"⟩]
      = 90 := by
  constructor
  · unfold calculateMinutesPlayed stintSum
    rw [foldl_add_stintMinutes]
    simp
  · simp only [calculateMinutesPlayed, stintMinutes, timeToMinutes, jsRound,
      List.foldl_cons, List.foldl_nil]
    norm_num

/-! ### C10: null-country lineup entries -/

theorem mem_ids_upsert_self (m : List PlayerDimRow) (r : PlayerDimRow) :
    r.playerId ∈ (upsertPlayer m r).map PlayerDimRow.playerId := by
  unfold upsertPlayer
  by_cases h : m.any (fun x => x.playerId == r.playerId) = true
  · rw [if_pos h]
    rcases List.any_eq_true.mp h with ⟨x, hx, hbeq⟩
    have hr : r ∈ m.map (fun x => if x.playerId == r.playerId then r else x) :=
      List.mem_map.mpr ⟨x, hx, by rw [if_pos hbeq]⟩
    exact List.mem_map_of_mem PlayerDimRow.playerId hr
  · rw [if_neg h]
    simp

theorem mem_ids_upsert_of_mem (m : List PlayerDimRow) (r : PlayerDimRow) (pid : Nat)
    (h : pid ∈ m.map PlayerDimRow.playerId) :
    pid ∈ (upsertPlayer m r).map PlayerDimRow.playerId := by
  unfold upsertPlayer
  by_cases hany : m.any (fun x => x.playerId == r.playerId) = true
  · rw [if_pos hany]
    rcases List.mem_map.mp h with ⟨x, hx, rfl⟩
    by_cases hb : (x.playerId == r.playerId) = true
    · have heq : x.playerId = r.playerId := beq_iff_eq.mp hb
      have hr : r ∈ m.map (fun y => if y.playerId == r.playerId then r else y) :=
        List.mem_map.mpr ⟨x, hx, by rw [if_pos hb]⟩
      rw [heq]
      exact List.mem_map_of_mem PlayerDimRow.playerId hr
    · have hxmem : x ∈ m.map (fun y => if y.playerId == r.playerId then r else y) :=
        List.mem_map.mpr ⟨x, hx, by rw [if_neg hb]⟩
      exact List.mem_map_of_mem PlayerDimRow.playerId hxmem
  · rw [if_neg hany]
    simp [h]

theorem scan_lineup_mem (pid : Nat) :
    ∀ (players : List PlayerJSON) (acc : List PlayerDimRow),
      (pid ∈ acc.map PlayerDimRow.playerId ∨ ∃ p ∈ players, p.player_id = pid) →
      pid ∈ (players.foldl
          (fun acc player =>
            upsertPlayer acc ⟨player.player_id, player.player_name, player.player_nickname⟩)
          acc).map PlayerDimRow.playerId := by
  intro players
  induction players with
  | nil =>
      intro acc h
      rcases h with h | ⟨p, hp, _⟩
      · simpa using h
      · exact absurd hp (List.not_mem_nil p)
  | cons p ps ih =>
      intro acc h
      simp only [List.foldl_cons]
      apply ih
      rcases h with h | ⟨q, hq, hqid⟩
      · exact Or.inl (mem_ids_upsert_of_mem _ _ _ h)
      · rcases List.mem_cons.mp hq with rfl | hq2
        · left
          have hself := mem_ids_upsert_self acc
            ⟨q.player_id, q.player_name, q.player_nickname⟩
          exact hqid ▸ hself
        · exact Or.inr ⟨q, hq2, hqid⟩

theorem scan_teams_mem (pid : Nat) :
    ∀ (teams : List LineupJSON) (acc : List PlayerDimRow),
      (pid ∈ acc.map PlayerDimRow.playerId
        ∨ ∃ team ∈ teams, ∃ p ∈ team.lineup, p.player_id = pid) →
      pid ∈ (teams.foldl
          (fun acc team =>
            team.lineup.foldl
              (fun acc player =>
                upsertPlayer acc
                  ⟨player.player_id, player.player_name, player.player_nickname⟩)
              acc)
          acc).map PlayerDimRow.playerId := by
  intro teams
  induction teams with
  | nil =>
      intro acc h
      rcases h with h | ⟨t, ht, _⟩
      · simpa using h
      · exact absurd ht (List.not_mem_nil t)
  | cons t ts ih =>
      intro acc h
      simp only [List.foldl_cons]
      apply ih
      rcases h with h | ⟨u, hu, p, hp, hpid⟩
      · exact Or.inl (scan_lineup_mem pid t.lineup acc (Or.inl h))
      · rcases List.mem_cons.mp hu with rfl | hu2
        · exact Or.inl (scan_lineup_mem pid u.lineup acc (Or.inr ⟨p, hp, hpid⟩))
        · exact Or.inr ⟨u, hu2, p, hp, hpid⟩

theorem scan_files_mem (pid : Nat) :
    ∀ (mts : List (Nat × List LineupJSON)) (acc : List PlayerDimRow),
      (pid ∈ acc.map PlayerDimRow.playerId
        ∨ ∃ mt ∈ mts, ∃ team ∈ mt.2, ∃ p ∈ team.lineup, p.player_id = pid) →
      pid ∈ (mts.foldl
          (fun acc mt =>
            mt.2.foldl
              (fun acc team =>
                team.lineup.foldl
                  (fun acc player =>
                    upsertPlayer acc
                      ⟨player.player_id, player.player_name, player.player_nickname⟩)
                  acc)
              acc)
          acc).map PlayerDimRow.playerId := by
  intro mts
  induction mts with
  | nil =>
      intro acc h
      rcases h with h | ⟨mt, hmt, _⟩
      · simpa using h
      · exact absurd hmt (List.not_mem_nil mt)
  | cons mt mts ih =>
      intro acc h
      simp only [List.foldl_cons]
      apply ih
      rcases h with h | ⟨nt, hnt, team, hteam, p, hp, hpid⟩
      · exact Or.inl (scan_teams_mem pid mt.2 acc (Or.inl h))
      · rcases List.mem_cons.mp hnt with rfl | hnt2
        · exact Or.inl (scan_teams_mem pid nt.2 acc (Or.inr ⟨team, hteam, p, hp, hpid⟩))
        · exact Or.inr ⟨nt, hnt2, team, hteam, p, hp, hpid⟩

/-- C10: a lineup entry whose player record lacks a country name is still
recorded in the players dimension by the scan pass, but when no entry for
a player carries a country name, no `player_lineups`, `player_positions`
or `player_cards` row for that player is built by the insert pass — the
rows are silently omitted. -/
theorem c10_null_country_entries (files : List (SrcFile (List LineupJSON)))
    (resolve : String → Nat) (pid : Nat)
    (hnone : ∀ mt ∈ loadFileBatch files, ∀ team ∈ mt.2, ∀ player ∈ team.lineup,
        player.player_id = pid → countryNameOf player = none) :
    ((∃ mt ∈ loadFileBatch files, ∃ team ∈ mt.2, ∃ player ∈ team.lineup,
        player.player_id = pid) →
      pid ∈ (scanPlayers files).map PlayerDimRow.playerId)
    ∧ (∀ r ∈ batchLineups resolve files, r.playerId ≠ pid)
    ∧ (∀ r ∈ batchPositions files, r.playerId ≠ pid)
    ∧ (∀ r ∈ batchCards files, r.playerId ≠ pid) := by
  refine ⟨?_, ?_, ?_, ?_⟩
  · rintro ⟨mt, hmt, team, hteam, player, hplayer, hpid⟩
    unfold scanPlayers
    exact scan_files_mem pid (loadFileBatch files) []
      (Or.inr ⟨mt, hmt, team, hteam, player, hplayer, hpid⟩)
  · intro r hr
    unfold batchLineups at hr
    rcases List.mem_flatMap.mp hr with ⟨mt, hmt, hr2⟩
    rcases List.mem_flatMap.mp hr2 with ⟨team, hteam, hr3⟩
    rcases List.mem_filterMap.mp hr3 with ⟨player, hplayer, hmk⟩
    rcases hcn : countryNameOf player with _ | cname <;> rw [hcn] at hmk
    · exact absurd hmk (by simp)
    · have hrow := Option.some.inj hmk
      subst hrow
      intro hrp
      have hpidp : player.player_id = pid := hrp
      have := hnone mt hmt team hteam player hplayer hpidp
      rw [this] at hcn
      exact absurd hcn (by simp)
  · intro r hr
    unfold batchPositions at hr
    rcases List.mem_flatMap.mp hr with ⟨mt, hmt, hr2⟩
    rcases List.mem_flatMap.mp hr2 with ⟨team, hteam, hr3⟩
    rcases List.mem_flatMap.mp hr3 with ⟨player, hplayer, hr4⟩
    rcases hcn : countryNameOf player with _ | cname <;> rw [hcn] at hr4
    · exact absurd hr4 (List.not_mem_nil r)
    · rcases List.mem_map.mp hr4 with ⟨pos, hpos, hrow⟩
      subst hrow
      intro hrp
      have hpidp : player.player_id = pid := hrp
      have := hnone mt hmt team hteam player hplayer hpidp
      rw [this] at hcn
      exact absurd hcn (by simp)
  · intro r hr
    unfold batchCards at hr
    rcases List.mem_flatMap.mp hr with ⟨mt, hmt, hr2⟩
    rcases List.mem_flatMap.mp hr2 with ⟨team, hteam, hr3⟩
    rcases List.mem_flatMap.mp hr3 with ⟨player, hplayer, hr4⟩
    rcases hcn : countryNameOf player with _ | cname <;> rw [hcn] at hr4
    · exact absurd hr4 (List.not_mem_nil r)
    · rcases List.mem_map.mp hr4 with ⟨card, hcard, hrow⟩
      subst hrow
      intro hrp
      have hpidp : player.player_id = pid := hrp
      have := hnone mt hmt team hteam player hplayer hpidp
      rw [this] at hcn
      exact absurd hcn (by simp)

/-- A lineup entry with no country record. -/
def sampleNoCountryPlayer : PlayerJSON := ⟨9, "Nine", none, 9, none, [], []⟩

/-- One lineup file containing only the country-less entry. -/
def sampleLineupFiles : List (SrcFile (List LineupJSON)) :=
  [⟨"1.json", FileContent.parsed [⟨100, "Home", [sampleNoCountryPlayer]⟩]⟩]

/-- Witness for `c10_null_country_entries` on the concrete country-less
entry: scanned into the players dimension, no lineup fact row. -/
theorem c10_null_country_entries_witness :
    (9 : Nat) ∈ (scanPlayers sampleLineupFiles).map PlayerDimRow.playerId
    ∧ ∀ r ∈ batchLineups (fun _ => 0) sampleLineupFiles, r.playerId ≠ 9 := by
  have h := c10_null_country_entries sampleLineupFiles (fun _ => 0) 9 (by decide)
  exact ⟨h.1 (by decide), h.2.1⟩

end FootballRag.Lineups

namespace FootballRag.Agg

/-! ## Player stats aggregation (aggregate-player-stats.ts) -/

/-- One row of the `players` table: identity columns, the six derived
career fields, and the non-derived name columns (timestamps are neither
read nor written by the pass and are not modelled). -/
structure PlayerRosterRow where
  playerId : Nat
  playerName : String
  playerNickname : Option String
  totalMatches : Int
  totalMinutesPlayed : ℚ
  totalGoals : Int
  totalAssists : Int
  totalYellowCards : Int
  totalRedCards : Int
deriving DecidableEq

/-- The `player_lineups` columns the pass reads. -/
structure LineupFactRow where
  matchId : Nat
  playerId : Nat
  minutesPlayed : ℚ
deriving DecidableEq

/-- The `events` columns the pass reads (`player_id` is nullable:
administrative events have no player). -/
structure EventFactRow where
  id : String
  playerId : Option Nat
deriving DecidableEq

/-- The `shots` columns the pass reads. -/
structure ShotFactRow where
  eventId : String
  outcomeId : Nat
deriving DecidableEq

/-- One `shot_outcomes` lookup row. -/
structure ShotOutcomeRow where
  id : Nat
  name : String
deriving DecidableEq

/-- The `passes` columns the pass reads. -/
structure PassFactRow where
  eventId : String
  goalAssist : Bool
deriving DecidableEq

/-- The `player_cards` columns the pass reads. -/
structure CardFactRow where
  playerId : Nat
  cardType : String
deriving DecidableEq

/-- The database state the aggregation pass sees. -/
structure AggDB where
  players : List PlayerRosterRow
  playerLineups : List LineupFactRow
  events : List EventFactRow
  shots : List ShotFactRow
  shotOutcomes : List ShotOutcomeRow
  passes : List PassFactRow
  playerCards : List CardFactRow
deriving DecidableEq

/-- The `total_matches` subquery has a group for `pid`. -/
def inLineups (lineups : List LineupFactRow) (pid : Nat) : Bool :=
  lineups.any (fun l => decide (l.playerId = pid))

/-- `COUNT(DISTINCT match_id) FROM player_lineups GROUP BY player_id`. -/
def matchCount (lineups : List LineupFactRow) (pid : Nat) : Nat :=
  (((lineups.filter (fun l => decide (l.playerId = pid))).map
      (fun l => l.matchId)).dedup).length

/-- `SUM(minutes_played) FROM player_lineups GROUP BY player_id`. -/
def minutesSum (lineups : List LineupFactRow) (pid : Nat) : ℚ :=
  ((lineups.filter (fun l => decide (l.playerId = pid))).map
      (fun l => l.minutesPlayed)).sum

/-- The row set of
`events e JOIN shots s ON e.id = s.event_id
 JOIN shot_outcomes so ON s.outcome_id = so.id WHERE so.name = 'Goal'`. -/
def goalJoin (events : List EventFactRow) (shots : List ShotFactRow)
    (outcomes : List ShotOutcomeRow) :
    List (EventFactRow × ShotFactRow × ShotOutcomeRow) :=
  events.flatMap fun e =>
    shots.flatMap fun sh =>
      outcomes.flatMap fun so =>
        if e.id = sh.eventId ∧ sh.outcomeId = so.id ∧ so.name = "Goal"
        then [(e, sh, so)] else []

/-- The goal subquery has a group for `pid`. -/
def hasGoalRow (events : List EventFactRow) (shots : List ShotFactRow)
    (outcomes : List ShotOutcomeRow) (pid : Nat) : Bool :=
  (goalJoin events shots outcomes).any (fun t => decide (t.1.playerId = some pid))

/-- `COUNT(*)` of the goal subquery's group for `pid`. -/
def goalCount (events : List EventFactRow) (shots : List ShotFactRow)
    (outcomes : List ShotOutcomeRow) (pid : Nat) : Nat :=
  ((goalJoin events shots outcomes).filter
    (fun t => decide (t.1.playerId = some pid))).length

/-- The row set of
`events e JOIN passes ps ON e.id = ps.event_id WHERE ps.goal_assist = true`. -/
def assistJoin (events : List EventFactRow) (passes : List PassFactRow) :
    List (EventFactRow × PassFactRow) :=
  events.flatMap fun e =>
    passes.flatMap fun ps =>
      if e.id = ps.eventId ∧ ps.goalAssist = true then [(e, ps)] else []

/-- The assist subquery has a group for `pid`. -/
def hasAssistRow (events : List EventFactRow) (passes : List PassFactRow)
    (pid : Nat) : Bool :=
  (assistJoin events passes).any (fun t => decide (t.1.playerId = some pid))

/-- `COUNT(*)` of the assist subquery's group for `pid`. -/
def assistCount (events : List EventFactRow) (passes : List PassFactRow)
    (pid : Nat) : Nat :=
  ((assistJoin events passes).filter
    (fun t => decide (t.1.playerId = some pid))).length

/-- The yellow-card subquery has a group for `pid`. -/
def hasYellowCard (cards : List CardFactRow) (pid : Nat) : Bool :=
  cards.any (fun c => decide (c.playerId = pid ∧ c.cardType = "Yellow Card"))

/-- `COUNT(*) FROM player_cards WHERE card_type = 'Yellow Card'` for
`pid`'s group. -/
def yellowCount (cards : List CardFactRow) (pid : Nat) : Nat :=
  (cards.filter
    (fun c => decide (c.playerId = pid ∧ c.cardType = "Yellow Card"))).length

/-- The red-card subquery has a group for `pid`. -/
def hasRedCard (cards : List CardFactRow) (pid : Nat) : Bool :=
  cards.any (fun c => decide (c.playerId = pid ∧
    (c.cardType = "Red Card" ∨ c.cardType = "Second Yellow")))

/-- `COUNT(*) FROM player_cards WHERE card_type IN ('Red Card',
'Second Yellow')` for `pid`'s group. -/
def redCount (cards : List CardFactRow) (pid : Nat) : Nat :=
  (cards.filter (fun c => decide (c.playerId = pid ∧
    (c.cardType = "Red Card" ∨ c.cardType = "Second Yellow")))).length

/-! Each `UPDATE players p SET col = … FROM (subquery) WHERE
p.player_id = subquery.player_id` statement assigns the subquery value as
a full replacement to exactly the players whose id has a group in the
subquery, and leaves every other row and column untouched. -/

def updateTotalMatches (db : AggDB) : AggDB :=
  { db with players := db.players.map fun p =>
      if inLineups db.playerLineups p.playerId then
        { p with totalMatches := (matchCount db.playerLineups p.playerId : Int) }
      else p }

def updateTotalGoals (db : AggDB) : AggDB :=
  { db with players := db.players.map fun p =>
      if hasGoalRow db.events db.shots db.shotOutcomes p.playerId then
        { p with totalGoals := (goalCount db.events db.shots db.shotOutcomes p.playerId : Int) }
      else p }

def updateTotalAssists (db : AggDB) : AggDB :=
  { db with players := db.players.map fun p =>
      if hasAssistRow db.events db.passes p.playerId then
        { p with totalAssists := (assistCount db.events db.passes p.playerId : Int) }
      else p }

def updateTotalYellowCards (db : AggDB) : AggDB :=
  { db with players := db.players.map fun p =>
      if hasYellowCard db.playerCards p.playerId then
        { p with totalYellowCards := (yellowCount db.playerCards p.playerId : Int) }
      else p }

def updateTotalRedCards (db : AggDB) : AggDB :=
  { db with players := db.players.map fun p =>
      if hasRedCard db.playerCards p.playerId then
        { p with totalRedCards := (redCount db.playerCards p.playerId : Int) }
      else p }

def updateTotalMinutesPlayed (db : AggDB) : AggDB :=
  { db with players := db.players.map fun p =>
      if inLineups db.playerLineups p.playerId then
        { p with totalMinutesPlayed := minutesSum db.playerLineups p.playerId }
      else p }

/-- `aggregatePlayerStats`: the six UPDATE statements in source order —
matches, goals, assists, yellow cards, red cards, minutes. -/
def aggregatePlayerStats (db : AggDB) : AggDB :=
  updateTotalMinutesPlayed
    (updateTotalRedCards
      (updateTotalYellowCards
        (updateTotalAssists
          (updateTotalGoals
            (updateTotalMatches db)))))

/-- Field-wise effect of the whole pass on one `players` row: each of the
six derived fields is replaced by its subquery value when the player has a
group in that subquery, and kept otherwise; nothing else changes. -/
def aggPlayerFormula (lineups : List LineupFactRow) (events : List EventFactRow)
    (shots : List ShotFactRow) (outcomes : List ShotOutcomeRow)
    (passes : List PassFactRow) (cards : List CardFactRow)
    (p : PlayerRosterRow) : PlayerRosterRow :=
  { p with
    totalMatches :=
      if inLineups lineups p.playerId then (matchCount lineups p.playerId : Int)
      else p.totalMatches
    totalGoals :=
      if hasGoalRow events shots outcomes p.playerId then
        (goalCount events shots outcomes p.playerId : Int)
      else p.totalGoals
    totalAssists :=
      if hasAssistRow events passes p.playerId then
        (assistCount events passes p.playerId : Int)
      else p.totalAssists
    totalYellowCards :=
      if hasYellowCard cards p.playerId then (yellowCount cards p.playerId : Int)
      else p.totalYellowCards
    totalRedCards :=
      if hasRedCard cards p.playerId then (redCount cards p.playerId : Int)
      else p.totalRedCards
    totalMinutesPlayed :=
      if inLineups lineups p.playerId then minutesSum lineups p.playerId
      else p.totalMinutesPlayed }

theorem aggregate_spec (db : AggDB) :
    aggregatePlayerStats db
      = { db with players :=
            (db.players.map
              (aggPlayerFormula db.playerLineups db.events db.shots db.shotOutcomes
                db.passes db.playerCards)) } := by
  cases db with
  | mk players lineups events shots outcomes passes cards =>
      simp only [aggregatePlayerStats, updateTotalMatches, updateTotalGoals,
        updateTotalAssists, updateTotalYellowCards, updateTotalRedCards,
        updateTotalMinutesPlayed, List.map_map]
      congr 1
      apply List.map_congr_left
      intro p _
      cases p with
      | mk pid pname pnick tm tmin tg ta ty tr =>
          by_cases h1 : inLineups lineups pid = true <;>
          by_cases h2 : hasGoalRow events shots outcomes pid = true <;>
          by_cases h3 : hasAssistRow events passes pid = true <;>
          by_cases h4 : hasYellowCard cards pid = true <;>
          by_cases h5 : hasRedCard cards pid = true <;>
            simp [aggPlayerFormula, Function.comp, h1, h2, h3, h4, h5]

theorem aggPlayerFormula_idem (lineups : List LineupFactRow)
    (events : List EventFactRow) (shots : List ShotFactRow)
    (outcomes : List ShotOutcomeRow) (passes : List PassFactRow)
    (cards : List CardFactRow) (p : PlayerRosterRow) :
    aggPlayerFormula lineups events shots outcomes passes cards
        (aggPlayerFormula lineups events shots outcomes passes cards p)
      = aggPlayerFormula lineups events shots outcomes passes cards p := by
  cases p with
  | mk pid pname pnick tm tmin tg ta ty tr =>
      by_cases h1 : inLineups lineups pid = true <;>
      by_cases h2 : hasGoalRow events shots outcomes pid = true <;>
      by_cases h3 : hasAssistRow events passes pid = true <;>
      by_cases h4 : hasYellowCard cards pid = true <;>
      by_cases h5 : hasRedCard cards pid = true <;>
        simp [aggPlayerFormula, h1, h2, h3, h4, h5]

/-- C8: running the aggregation pass twice over an unchanged database
produces exactly the state after running it once — every derived field is
a full replacement computed from the fact tables, never an increment. -/
theorem c8_aggregation_idempotent (db : AggDB) :
    aggregatePlayerStats (aggregatePlayerStats db) = aggregatePlayerStats db := by
  cases db with
  | mk players lineups events shots outcomes passes cards =>
      rw [aggregate_spec, aggregate_spec]
      simp only [List.map_map]
      congr 1
      apply List.map_congr_left
      intro p _
      exact aggPlayerFormula_idem lineups events shots outcomes passes cards p

theorem mem_zip_map {α : Type} (l : List α) (f : α → α) :
    ∀ pq ∈ l.zip (l.map f), pq.2 = f pq.1 := by
  induction l with
  | nil => intro pq h; simp at h
  | cons a t ih =>
      intro pq h
      simp only [List.map_cons, List.zip_cons_cons] at h
      rcases List.mem_cons.mp h with rfl | h2
      · rfl
      · exact ih pq h2

/-- C9: the aggregation pass updates a derived field of a player only when
that player has a group in the corresponding fact subquery — a player with
no qualifying fact rows keeps the field's previous value — and the
identity/name columns of every player are left unchanged. -/
theorem c9_aggregation_frame (db : AggDB) :
    (aggregatePlayerStats db).players.length = db.players.length
    ∧ ∀ pq ∈ db.players.zip (aggregatePlayerStats db).players,
        pq.2.playerId = pq.1.playerId
        ∧ pq.2.playerName = pq.1.playerName
        ∧ pq.2.playerNickname = pq.1.playerNickname
        ∧ (inLineups db.playerLineups pq.1.playerId = false →
            pq.2.totalMatches = pq.1.totalMatches
            ∧ pq.2.totalMinutesPlayed = pq.1.totalMinutesPlayed)
        ∧ (hasGoalRow db.events db.shots db.shotOutcomes pq.1.playerId = false →
            pq.2.totalGoals = pq.1.totalGoals)
        ∧ (hasAssistRow db.events db.passes pq.1.playerId = false →
            pq.2.totalAssists = pq.1.totalAssists)
        ∧ (hasYellowCard db.playerCards pq.1.playerId = false →
            pq.2.totalYellowCards = pq.1.totalYellowCards)
        ∧ (hasRedCard db.playerCards pq.1.playerId = false →
            pq.2.totalRedCards = pq.1.totalRedCards) := by
  cases db with
  | mk players lineups events shots outcomes passes cards =>
      rw [aggregate_spec]
      refine ⟨by simp, ?_⟩
      intro pq hpq
      have hform := mem_zip_map players
        (aggPlayerFormula lineups events shots outcomes passes cards) pq hpq
      rcases pq with ⟨p, q⟩
      simp only at hform
      subst hform
      refine ⟨rfl, rfl, rfl, ?_, ?_, ?_, ?_, ?_⟩
      · intro hf
        constructor <;> simp [aggPlayerFormula, hf]
      · intro hf
        simp [aggPlayerFormula, hf]
      · intro hf
        simp [aggPlayerFormula, hf]
      · intro hf
        simp [aggPlayerFormula, hf]
      · intro hf
        simp [aggPlayerFormula, hf]

/-- A concrete roster row with nonzero stored totals. -/
def samplePlayerRow : PlayerRosterRow := ⟨9, "Nine", none, 3, 45, 2, 1, 1, 0⟩

/-- A database whose fact tables contain no row for player 9. -/
def sampleAggDB : AggDB := ⟨[samplePlayerRow], [], [], [], [], [], []⟩

/-- Witness for `c9_aggregation_frame`: with no qualifying fact rows, the
pass leaves the stored totals of the sample player unchanged. -/
theorem c9_aggregation_frame_witness :
    (samplePlayerRow, samplePlayerRow)
        ∈ sampleAggDB.players.zip (aggregatePlayerStats sampleAggDB).players
    ∧ samplePlayerRow.totalMatches = samplePlayerRow.totalMatches
    ∧ samplePlayerRow.totalGoals = samplePlayerRow.totalGoals := by
  have hmem : (samplePlayerRow, samplePlayerRow)
      ∈ sampleAggDB.players.zip (aggregatePlayerStats sampleAggDB).players :=
    List.mem_singleton.mpr rfl
  have h := (c9_aggregation_frame sampleAggDB).2
    (samplePlayerRow, samplePlayerRow) hmem
  exact ⟨hmem, (h.2.2.2.1 rfl).1, h.2.2.2.2.1 rfl⟩

end FootballRag.Agg
